import Mathlib

/-!
Verification of the point-cloud globe renderer of this repository
(src/frontend/src/components/Globe.jsx and the two variants in
src/frontend/src/components/globe.jsx).

The geometry (point generation, 3D-to-2D projection, wave displacement)
is embedded over the real numbers; the per-frame animation state and the
viewport/lifecycle state, which involve no trigonometry, are embedded
over the rationals so that concrete runs can be evaluated.
-/

/-- A 3D point as stored in the `points` array: `{x, y, z}`. -/
structure Point3 where
  x : ℝ
  y : ℝ
  z : ℝ

/-- The value returned by `project`: `{px, py, scale, z: z2}`
(Globe.jsx line 67; the interactive variant omits the `z` field but
computes the same `z2`). -/
structure Projected where
  px : ℝ
  py : ℝ
  scale : ℝ
  z : ℝ

/-- The fixed camera distance, `const depth = 500` (Globe.jsx line 63). -/
noncomputable def depth : ℝ := 500

/-- Embedding of `project` (Globe.jsx lines 51-68; identical arithmetic in
both variants of globe.jsx). `width` and `height` are captured from the
enclosing effect closure in the source and passed explicitly here. -/
noncomputable def project (width height : ℝ) (p : Point3) (rotY rotX : ℝ) : Projected :=
  let cosY := Real.cos rotY
  let sinY := Real.sin rotY
  let x := p.x * cosY + p.z * sinY
  let z := p.z * cosY - p.x * sinY
  let y := p.y
  let cosX := Real.cos rotX
  let sinX := Real.sin rotX
  let y2 := y * cosX - z * sinX
  let z2 := z * cosX + y * sinX
  let scale := depth / (depth + z2)
  let px := width / 2 + x * scale
  let py := height / 2 + y2 * scale
  ⟨px, py, scale, z2⟩

/-- Spec-side stage 1: rotation about the vertical axis by angle `a`,
with components written as in the spec:
x' = x*cos a + z*sin a, z' = z*cos a - x*sin a, y' = y. -/
noncomputable def rotateY (p : Point3) (a : ℝ) : Point3 :=
  ⟨p.x * Real.cos a + p.z * Real.sin a, p.y, p.z * Real.cos a - p.x * Real.sin a⟩

/-- Spec-side stage 2: rotation about the horizontal axis by angle `a`:
y'' = y*cos a - z*sin a, z'' = z*cos a + y*sin a, x unchanged. -/
noncomputable def rotateX (p : Point3) (a : ℝ) : Point3 :=
  ⟨p.x, p.y * Real.cos a - p.z * Real.sin a, p.z * Real.cos a + p.y * Real.sin a⟩

/-- Spec-side stage 3: perspective divide with camera distance `depth` and
screen centering: scale = depth/(depth+z), px = width/2 + x*scale,
py = height/2 + y*scale. -/
noncomputable def perspective (width height : ℝ) (p : Point3) : Projected :=
  let scale := depth / (depth + p.z)
  ⟨width / 2 + p.x * scale, height / 2 + p.y * scale, scale, p.z⟩

/-- Squared Euclidean norm of a stored point, as computed in the draw
loops by `p.x * p.x + p.y * p.y + p.z * p.z` before the square root. -/
noncomputable def normSq (p : Point3) : ℝ := p.x * p.x + p.y * p.y + p.z * p.z

theorem project_eq_stages (w h : ℝ) (p : Point3) (ry rx : ℝ) :
    project w h p ry rx = perspective w h (rotateX (rotateY p ry) rx) := rfl

/-- C1: project applies, in order, the vertical-axis rotation by rotY, the
horizontal-axis rotation by rotX, then the perspective divide with
D = 500 and screen centering; and a point whose rotated depth z'' is 0
projects with scale exactly 1. -/
theorem C1_project_pipeline (w h : ℝ) (p : Point3) (ry rx : ℝ) :
    project w h p ry rx = perspective w h (rotateX (rotateY p ry) rx) ∧
    ((rotateX (rotateY p ry) rx).z = 0 → (project w h p ry rx).scale = 1) := by
  refine ⟨project_eq_stages w h p ry rx, fun hz => ?_⟩
  rw [project_eq_stages]
  simp [perspective, hz, depth]

/-- Witness for C1 at the concrete point (3, 4, 0) with both angles 0 and a
600 by 600 viewport: the rotated depth is 0 and the scale is exactly 1. -/
theorem C1_project_pipeline_witness :
    (rotateX (rotateY ⟨3, 4, 0⟩ 0) 0).z = 0 ∧
    (project 600 600 ⟨3, 4, 0⟩ 0 0).scale = 1 := by
  have hz : (rotateX (rotateY ⟨3, 4, 0⟩ 0) 0).z = 0 := by
    simp [rotateX, rotateY]
  exact ⟨hz, (C1_project_pipeline 600 600 ⟨3, 4, 0⟩ 0 0).2 hz⟩

theorem normSq_rotateY (p : Point3) (a : ℝ) : normSq (rotateY p a) = normSq p := by
  simp only [normSq, rotateY]
  linear_combination (p.x * p.x + p.z * p.z) * Real.sin_sq_add_cos_sq a

theorem normSq_rotateX (p : Point3) (a : ℝ) : normSq (rotateX p a) = normSq p := by
  simp only [normSq, rotateX]
  linear_combination (p.y * p.y + p.z * p.z) * Real.sin_sq_add_cos_sq a

/-- C2: for any point within the generation radius (Euclidean norm at most
RADIUS) and any pair of rotation angles, when RADIUS is below the camera
distance D = 500 the divisor D + z'' of the perspective divide is strictly
positive, hence the returned scale is strictly positive (and every returned
component is a well-defined real number). -/
theorem C2_scale_positive (w h RADIUS : ℝ) (p : Point3) (ry rx : ℝ)
    (hR : RADIUS < depth) (hp : Real.sqrt (normSq p) ≤ RADIUS) :
    0 < depth + (project w h p ry rx).z ∧ 0 < (project w h p ry rx).scale := by
  have hR0 : (0 : ℝ) ≤ RADIUS := le_trans (Real.sqrt_nonneg _) hp
  have h0 : 0 ≤ normSq p := by
    unfold normSq
    linarith [mul_self_nonneg p.x, mul_self_nonneg p.y, mul_self_nonneg p.z]
  have hS : normSq p ≤ RADIUS ^ 2 := by
    nlinarith [Real.sq_sqrt h0, Real.sqrt_nonneg (normSq p)]
  have hq := project_eq_stages w h p ry rx
  have hnorm : normSq (rotateX (rotateY p ry) rx) = normSq p := by
    rw [normSq_rotateX, normSq_rotateY]
  have hz2 : (rotateX (rotateY p ry) rx).z ^ 2 ≤ RADIUS ^ 2 := by
    have hxy : 0 ≤ (rotateX (rotateY p ry) rx).x * (rotateX (rotateY p ry) rx).x +
        (rotateX (rotateY p ry) rx).y * (rotateX (rotateY p ry) rx).y := by
      linarith [mul_self_nonneg (rotateX (rotateY p ry) rx).x,
        mul_self_nonneg (rotateX (rotateY p ry) rx).y]
    have := hnorm.trans_le hS
    unfold normSq at this
    nlinarith [this, hxy]
  have habs : |(rotateX (rotateY p ry) rx).z| ≤ RADIUS := by
    have h1 : Real.sqrt ((rotateX (rotateY p ry) rx).z ^ 2) ≤ Real.sqrt (RADIUS ^ 2) :=
      Real.sqrt_le_sqrt hz2
    rwa [Real.sqrt_sq_eq_abs, Real.sqrt_sq hR0] at h1
  have hzpos : 0 < depth + (rotateX (rotateY p ry) rx).z := by
    have := abs_le.mp habs
    unfold depth
    unfold depth at hR
    linarith [this.1]
  constructor
  · rw [hq]; exact hzpos
  · rw [hq]
    show 0 < depth / (depth + (rotateX (rotateY p ry) rx).z)
    exact div_pos (by unfold depth; norm_num) hzpos

/-- Witness for C2: the origin lies within RADIUS = 100 < 500, and its
projection at angles 0, 0 on a 600 by 600 viewport has positive divisor and
positive scale. -/
theorem C2_scale_positive_witness :
    (100 : ℝ) < depth ∧ Real.sqrt (normSq ⟨0, 0, 0⟩) ≤ 100 ∧
    (0 < depth + (project 600 600 ⟨0, 0, 0⟩ 0 0).z ∧
      0 < (project 600 600 ⟨0, 0, 0⟩ 0 0).scale) := by
  have h1 : (100 : ℝ) < depth := by unfold depth; norm_num
  have h2 : Real.sqrt (normSq ⟨0, 0, 0⟩) ≤ 100 := by
    simp [normSq, Real.sqrt_zero]
  exact ⟨h1, h2, C2_scale_positive 600 600 100 ⟨0, 0, 0⟩ 0 0 h1 h2⟩

/-- Embedding of `Math.cbrt` on the unit interval (its only use site feeds
it `Math.random()`, which is nonnegative). -/
noncomputable def cbrt (u : ℝ) : ℝ := u ^ ((1 : ℝ) / 3)

theorem cbrt_nonneg (u : ℝ) (h : 0 ≤ u) : 0 ≤ cbrt u := Real.rpow_nonneg h _

theorem cbrt_le_one (u : ℝ) (h0 : 0 ≤ u) (h1 : u ≤ 1) : cbrt u ≤ 1 :=
  Real.rpow_le_one h0 h1 (by norm_num)

/-- Embedding of one iteration of the point-generation loop
(Globe.jsx lines 36-44; globe.jsx lines 36-44 and 136-144): `u1, u2, u3` are
the three `Math.random()` draws, `theta = acos(2*u1 - 1)`,
`phi = 2*pi*u2`, `r = RADIUS * cbrt(u3)`, converted to Cartesian. -/
noncomputable def genPoint (RADIUS u1 u2 u3 : ℝ) : Point3 :=
  let theta := Real.arccos (2 * u1 - 1)
  let phi := 2 * Real.pi * u2
  let r := RADIUS * cbrt u3
  ⟨r * Real.sin theta * Real.cos phi, r * Real.sin theta * Real.sin phi, r * Real.cos theta⟩

/-- C3: every generated point satisfies x^2 + y^2 + z^2 = r^2 with
r = RADIUS * cbrt(u3), hence sqrt(x^2 + y^2 + z^2) is at most RADIUS for any
draws, provided the radial draw u3 lies in the unit interval and RADIUS is
nonnegative. -/
theorem C3_containment (RADIUS u1 u2 u3 : ℝ) (hR : 0 ≤ RADIUS)
    (h0 : 0 ≤ u3) (h1 : u3 ≤ 1) :
    normSq (genPoint RADIUS u1 u2 u3) = (RADIUS * cbrt u3) ^ 2 ∧
    Real.sqrt (normSq (genPoint RADIUS u1 u2 u3)) ≤ RADIUS := by
  have hsq : normSq (genPoint RADIUS u1 u2 u3) = (RADIUS * cbrt u3) ^ 2 := by
    simp only [normSq, genPoint]
    linear_combination
      ((RADIUS * cbrt u3) ^ 2 * Real.sin (Real.arccos (2 * u1 - 1)) ^ 2) *
          Real.sin_sq_add_cos_sq (2 * Real.pi * u2) +
        (RADIUS * cbrt u3) ^ 2 * Real.sin_sq_add_cos_sq (Real.arccos (2 * u1 - 1))
  refine ⟨hsq, ?_⟩
  rw [hsq, Real.sqrt_sq (mul_nonneg hR (cbrt_nonneg u3 h0))]
  calc RADIUS * cbrt u3 ≤ RADIUS * 1 :=
        mul_le_mul_of_nonneg_left (cbrt_le_one u3 h0 h1) hR
    _ = RADIUS := mul_one RADIUS

/-- Witness for C3 at RADIUS = 100 with draws u1 = 0, u2 = 0, u3 = 1. -/
theorem C3_containment_witness :
    (0 : ℝ) ≤ 100 ∧ (0 : ℝ) ≤ 1 ∧ (1 : ℝ) ≤ 1 ∧
    (normSq (genPoint 100 0 0 1) = (100 * cbrt 1) ^ 2 ∧
      Real.sqrt (normSq (genPoint 100 0 0 1)) ≤ 100) :=
  ⟨by norm_num, by norm_num, le_refl 1,
    C3_containment 100 0 0 1 (by norm_num) (by norm_num) (le_refl 1)⟩

/-- The constant per-frame rotation increment, `const baseRotY = 0.002`
(Globe.jsx line 48; globe.jsx lines 34 and 133). -/
def baseRotY : ℚ := 2 / 1000

/-- The animation state local to the ambient draw loop of Globe.jsx:
the frame counter `t` (line 46) and the accumulated angle `rotY`
(line 47), both initialised to 0. -/
structure AmbientState where
  t : ℚ
  rotY : ℚ
  deriving DecidableEq

def initAmbient : AmbientState := ⟨0, 0⟩

/-- The state update performed by one call of the ambient `draw`
(Globe.jsx lines 71-92): `rotY += baseRotY` at the top and `t += 1` at the
bottom; the oscillating `rotX` is recomputed from `t` each frame and never
stored. -/
def drawStepAmbient (s : AmbientState) : AmbientState :=
  ⟨s.t + 1, s.rotY + baseRotY⟩

theorem ambient_iterate (n : ℕ) :
    drawStepAmbient^[n] initAmbient = ⟨(n : ℚ), (n : ℚ) * baseRotY⟩ := by
  induction n with
  | zero => simp [initAmbient]
  | succ k ih =>
      rw [Function.iterate_succ_apply', ih]
      simp only [drawStepAmbient, AmbientState.mk.injEq]
      constructor
      · push_cast
        ring
      · push_cast
        ring

/-- C7: in the ambient variant the rotation angle after N frames is exactly
N * baseSpeed: rotY starts at 0 and each draw call adds the constant
baseRotY = 0.002, with no velocity or friction term. -/
theorem C7_ambient_rotation (n : ℕ) :
    (drawStepAmbient^[n] initAmbient).rotY = (n : ℚ) * baseRotY ∧
    baseRotY = 2 / 1000 := by
  rw [ambient_iterate]
  exact ⟨rfl, rfl⟩

/-- The animation state local to the interactive draw loop
(globe.jsx lines 131-134): frame counter, both angles and both velocities,
all initialised to 0. The source declares a `mouse` record as well but
registers no mouse event listener, so no transition other than the frame
step ever touches this state. -/
structure InteractiveState where
  t : ℚ
  rotY : ℚ
  rotX : ℚ
  velocityX : ℚ
  velocityY : ℚ
  deriving DecidableEq

def initInteractive : InteractiveState := ⟨0, 0, 0, 0, 0⟩

/-- The state update performed by one call of the interactive `draw`
(globe.jsx lines 161-188): `rotY += baseRotY + velocityY`,
`rotX += velocityX`, then both velocities decay by the factor 0.96, and
`t += 1` at the bottom. -/
def drawStepInteractive (s : InteractiveState) : InteractiveState :=
  ⟨s.t + 1, s.rotY + baseRotY + s.velocityY, s.rotX + s.velocityX,
    s.velocityX * (96 / 100), s.velocityY * (96 / 100)⟩

theorem interactive_iterate (n : ℕ) :
    drawStepInteractive^[n] initInteractive = ⟨(n : ℚ), (n : ℚ) * baseRotY, 0, 0, 0⟩ := by
  induction n with
  | zero => simp [initInteractive]
  | succ k ih =>
      rw [Function.iterate_succ_apply', ih]
      simp only [drawStepInteractive, InteractiveState.mk.injEq]
      refine ⟨by push_cast; ring, by push_cast; ring, by ring, by ring, by ring⟩

/-- C10: the interactive variant registers no mouse listeners, so from the
all-zero initial state both velocities stay 0 and rotX stays 0 in every
reachable state, rotY after N frames is exactly N * baseRotY, and the
rotation state evolution coincides with the ambient variant's. -/
theorem C10_interactive_equals_ambient (n : ℕ) :
    (drawStepInteractive^[n] initInteractive).velocityX = 0 ∧
    (drawStepInteractive^[n] initInteractive).velocityY = 0 ∧
    (drawStepInteractive^[n] initInteractive).rotX = 0 ∧
    (drawStepInteractive^[n] initInteractive).rotY = (n : ℚ) * baseRotY ∧
    (drawStepInteractive^[n] initInteractive).rotY =
      (drawStepAmbient^[n] initAmbient).rotY := by
  rw [interactive_iterate, ambient_iterate]
  exact ⟨rfl, rfl, rfl, rfl, rfl⟩

/-- The viewport dimensions held in the `dimensions` React state: its initial
value is the record `{width: maxWidth, height: maxHeight}` (Globe.jsx
line 7), in place until the first measurement of the container. -/
def initialDimensions (maxW maxH : ℚ) : ℚ × ℚ :=
  (maxW, maxH)

/-- Embedding of `updateSize` (Globe.jsx lines 11-16): measures the
container width `w` and stores the square `size = min(w, maxWidth,
maxHeight)` as both dimensions. -/
def updateSize (maxW maxH w : ℚ) : ℚ × ℚ :=
  let size := min w (min maxW maxH)
  (size, size)

/-- The state in scope inside one run of the animation effect of Globe.jsx
(lines 23-95): the captured `width` and `height` plus the loop-local frame
counter `t` and angle `rotY`. -/
structure GlobeState where
  width : ℚ
  height : ℚ
  t : ℚ
  rotY : ℚ
  deriving DecidableEq

/-- The state created when the animation effect runs for dimensions
`(w, h)`: `let t = 0; let rotY = 0` (Globe.jsx lines 46-47). -/
def initAnim (w h : ℚ) : GlobeState := ⟨w, h, 0, 0⟩

/-- One call of `draw` (Globe.jsx lines 71-92) as it acts on this state:
dimensions are read, `rotY += baseRotY`, `t += 1`. -/
def globeFrame (s : GlobeState) : GlobeState :=
  ⟨s.width, s.height, s.t + 1, s.rotY + baseRotY⟩

/-- A window resize event delivered to the mounted component: `updateSize`
stores a fresh square dimensions record (Globe.jsx lines 11-16), and since
the animation effect (lines 23-95) lists `dimensions` as its dependency, it
runs again, discarding the previous loop-local state and creating a fresh
one with `t = 0` and `rotY = 0` for the new dimensions. -/
def resizeEvent (maxW maxH w : ℚ) (_s : GlobeState) : GlobeState :=
  initAnim (updateSize maxW maxH w).1 (updateSize maxW maxH w).2

/-- C4 counterexample: starting from a 600 by 600 mount, after two frames
the counter t is 2; a resize of the container to 300 makes the next state
use the new 300 by 300 dimensions but restarts t at 0, not 2. -/
theorem C4_resize_restarts_counter :
    (globeFrame (globeFrame (initAnim 600 600))).t = 2 ∧
    (resizeEvent 600 600 300 (globeFrame (globeFrame (initAnim 600 600)))).width = 300 ∧
    (resizeEvent 600 600 300 (globeFrame (globeFrame (initAnim 600 600)))).t = 0 ∧
    (resizeEvent 600 600 300 (globeFrame (globeFrame (initAnim 600 600)))).t ≠ 2 := by
  refine ⟨?_, ?_, ?_, ?_⟩ <;>
    norm_num [globeFrame, initAnim, resizeEvent, updateSize]

/-- C4 amended: after a resize event the state uses the new square
dimensions min(w, maxWidth, maxHeight), and the frame counter is restarted
at 0 (the animation effect re-runs on every dimensions change); the next
frame then renders at the new dimensions. -/
theorem C4_resize_new_dims_fresh_t (maxW maxH w : ℚ) (s : GlobeState) :
    (resizeEvent maxW maxH w s).width = min w (min maxW maxH) ∧
    (resizeEvent maxW maxH w s).height = (resizeEvent maxW maxH w s).width ∧
    (resizeEvent maxW maxH w s).t = 0 ∧
    (globeFrame (resizeEvent maxW maxH w s)).width = min w (min maxW maxH) :=
  ⟨rfl, rfl, rfl, rfl⟩

/-- The listener and schedule resources held by a mounted Globe component:
whether the window resize listener is registered and whether a next
animation frame is pending. -/
structure CleanupState where
  resizeListenerOn : Bool
  framePending : Bool
  deriving DecidableEq

/-- The unmount teardown as written in the source: the resize effect
returns a cleanup that removes the resize listener (Globe.jsx line 19),
while the animation effect (lines 23-95) returns no cleanup at all, so the
pending requestAnimationFrame callback is left untouched and keeps
rescheduling itself. -/
def teardown (s : CleanupState) : CleanupState :=
  ⟨false, s.framePending⟩

/-- C5: teardown removes the resize listener but, because the animation
effect registers no cleanup, it does not cancel a pending frame: after
tearing down a fully mounted state the frame remains pending, so further
frames are still scheduled; teardown is idempotent and is a no-op on the
never-mounted state. -/
theorem C5_teardown_leaves_frame_pending :
    (teardown ⟨true, true⟩).resizeListenerOn = false ∧
    (teardown ⟨true, true⟩).framePending = true ∧
    teardown (teardown ⟨true, true⟩) = teardown ⟨true, true⟩ ∧
    teardown ⟨false, false⟩ = ⟨false, false⟩ := by
  decide

/-- C6 counterexample: the dimensions state before the first measurement is
the record {width: maxWidth, height: maxHeight}; mounted with maxWidth = 400
and maxHeight = 600 it is not square. -/
theorem C6_initial_state_not_square :
    (initialDimensions 400 600).1 = 400 ∧ (initialDimensions 400 600).2 = 600 ∧
    (initialDimensions 400 600).1 ≠ (initialDimensions 400 600).2 := by
  refine ⟨rfl, rfl, ?_⟩
  norm_num [initialDimensions]

/-- C6 amended: every measurement stores a square value, width == height ==
min(w, maxWidth, maxHeight), nonnegative whenever the measured container
width and the two bounds are nonnegative; the state before the first
measurement is {maxWidth, maxHeight}, square only when the two bounds
coincide. -/
theorem C6_measured_dimensions_square (maxW maxH w : ℚ) :
    (updateSize maxW maxH w).1 = (updateSize maxW maxH w).2 ∧
    (updateSize maxW maxH w).1 = min w (min maxW maxH) ∧
    (0 ≤ w → 0 ≤ maxW → 0 ≤ maxH → 0 ≤ (updateSize maxW maxH w).1) := by
  refine ⟨rfl, rfl, fun h1 h2 h3 => ?_⟩
  show 0 ≤ min w (min maxW maxH)
  exact le_min h1 (le_min h2 h3)

/-- Witness for C6 amended at maxWidth = maxHeight = 600 and container
width 300. -/
theorem C6_measured_dimensions_square_witness :
    (updateSize 600 600 300).1 = (updateSize 600 600 300).2 ∧
    0 ≤ (updateSize 600 600 300).1 :=
  ⟨(C6_measured_dimensions_square 600 600 300).1,
    (C6_measured_dimensions_square 600 600 300).2.2 (by norm_num) (by norm_num)
      (by norm_num)⟩

/-- C8 counterexample: project performs no clamping. At the input point
(0, 0, -600) with both angles 0 on a 600 by 600 viewport the rotated depth
is z'' = -600, below -D, and the scale actually returned and used by the
draw loop is 500 / (500 - 600) = -5, a negative number, not a clamped
positive floor. -/
theorem C8_no_clamp_counterexample :
    (project 600 600 ⟨0, 0, -600⟩ 0 0).scale = -5 ∧
    ¬ 0 < (project 600 600 ⟨0, 0, -600⟩ 0 0).scale := by
  have h : (project 600 600 ⟨0, 0, -600⟩ 0 0).scale = -5 := by
    norm_num [project, depth]
  refine ⟨h, ?_⟩
  rw [h]
  norm_num

/-- C8 amended: the code applies no floor to scale; the scale used for
sizing and alpha is exactly the raw perspective divide D / (D + z''), and it
is strictly positive precisely on inputs whose rotated depth z'' exceeds -D
(which covers every reachable configuration, where points lie within
RADIUS < D). -/
theorem C8_raw_divide_positive_iff (w h : ℝ) (p : Point3) (ry rx : ℝ) :
    (project w h p ry rx).scale = depth / (depth + (project w h p ry rx).z) ∧
    (-depth < (project w h p ry rx).z → 0 < (project w h p ry rx).scale) := by
  refine ⟨rfl, fun hz => ?_⟩
  have hpos : 0 < depth + (project w h p ry rx).z := by linarith
  exact div_pos (by unfold depth; norm_num) hpos

/-- Witness for C8 amended: the origin has rotated depth 0 > -500 and its
scale is positive. -/
theorem C8_raw_divide_positive_iff_witness :
    -depth < (project 600 600 ⟨0, 0, 0⟩ 0 0).z ∧
    0 < (project 600 600 ⟨0, 0, 0⟩ 0 0).scale := by
  have hz : -depth < (project 600 600 ⟨0, 0, 0⟩ 0 0).z := by
    norm_num [project, depth]
  exact ⟨hz, (C8_raw_divide_positive_iff 600 600 ⟨0, 0, 0⟩ 0 0).2 hz⟩

/-- A point as stored by the interactive variant's generation loop
(globe.jsx line 143): position plus two offset fields that are written once
as 0 and never read. -/
structure AdvPoint where
  x : ℝ
  y : ℝ
  z : ℝ
  offsetX : ℝ
  offsetY : ℝ

/-- The per-frame pulse of the interactive variant,
`Math.sin(t * 0.04) * 0.3 + 0.7` (globe.jsx line 163). -/
noncomputable def pulse (t : ℝ) : ℝ := Real.sin (t * (4 / 100)) * (3 / 10) + 7 / 10

/-- The travelling-wave displacement computed per point per frame
(globe.jsx lines 171-173): wave = sin(dist / 10 - t * 0.1), amplitude
wave * 6 * pulse. -/
noncomputable def waveDisplacement (p : AdvPoint) (t : ℝ) : ℝ :=
  Real.sin (Real.sqrt (p.x * p.x + p.y * p.y + p.z * p.z) / 10 - t * (1 / 10)) * 6 * pulse t

/-- The point loop of the interactive `draw` (globe.jsx lines 169-183):
for each stored point it computes the wave displacement and projects a
fresh record { x: p.x, y: p.y, z: p.z + amp }; the stored array is threaded
through unchanged, since the loop body never assigns to it. -/
noncomputable def drawWaveLoop (w h t ry rx : ℝ) :
    List AdvPoint → List Projected × List AdvPoint
  | [] => ([], [])
  | p :: ps =>
      let dist := Real.sqrt (p.x * p.x + p.y * p.y + p.z * p.z)
      let wave := Real.sin (dist / 10 - t * (1 / 10))
      let amp := wave * 6 * pulse t
      let pr := project w h ⟨p.x, p.y, p.z + amp⟩ ry rx
      let rest := drawWaveLoop w h t ry rx ps
      (pr :: rest.1, p :: rest.2)

/-- C9: the per-frame draw of the wave-distortion variant leaves the stored
points exactly as generated, and what it projects for each point is a fresh
copy whose z coordinate is displaced by
sin(dist / 10 - t * 0.1) * 6 * pulse(t). -/
theorem C9_draw_never_mutates_points (w h t ry rx : ℝ) (pts : List AdvPoint) :
    (drawWaveLoop w h t ry rx pts).2 = pts ∧
    (drawWaveLoop w h t ry rx pts).1 = pts.map (fun p =>
      project w h ⟨p.x, p.y, p.z + waveDisplacement p t⟩ ry rx) := by
  induction pts with
  | nil => exact ⟨rfl, rfl⟩
  | cons p ps ih =>
      constructor
      · show p :: (drawWaveLoop w h t ry rx ps).2 = p :: ps
        rw [ih.1]
      · show _ :: (drawWaveLoop w h t ry rx ps).1 = _
        rw [List.map_cons, ih.2]
        rfl
